import Mathlib

/-!
# Verification of `dict_lmdb.c` (Postfix LMDB dictionary adapter)

Shallow embedding of `src/postfix/src/util/dict_lmdb.c`.  The adapter's
five operations (lookup, update, delete, sequence, open) are translated
into pure Lean functions over an explicit handle state, parametric in the
underlying engine binding (`slmdb_get` / `slmdb_put` / `slmdb_del` /
`slmdb_cursor_get`), whose code lives outside the given sources and is
specified only at its interface boundary.

Modelling conventions:
* C strings (keys, values) are byte lists without interior NUL bytes; the
  byte actually stored/probed can carry one extra trailing 0 depending on
  the encoding flags (`DICT_FLAG_TRY1NULL` / `DICT_FLAG_TRY0NULL`).
* `msg_panic` / `msg_fatal` terminate the process: operations return an
  `Exit` value distinguishing a normal return from process termination.
* Each operation also returns the trace of externally visible events
  (advisory-lock transitions, engine data calls tagged with the encoding
  used, duplicate warnings, process exit).  `fcntl`-style advisory locks
  are process-scoped and released by the OS at process exit, so a
  `procExit` event releases any held lock in the lock-accounting function.
* The `DICT` flag bits (from `dict.h`, not among the given sources) are
  modelled as named booleans, one per flag recognized by this adapter.
-/

set_option autoImplicit false

namespace DictLmdb

/-- Byte strings as exchanged with the engine. -/
abbrev Bytes := List Nat

/-- Reading a buffer back as a C string stops at the first NUL byte
(`vstring_str` hands the caller a `char *`). -/
def cstr (b : Bytes) : Bytes := b.takeWhile (fun c => c ≠ 0)

/-- ASCII lowercase of one byte, as done by `lowercase()` from stringops(3). -/
def lowerByte (c : Nat) : Nat := if 65 ≤ c ∧ c ≤ 90 then c + 32 else c

/-- `lowercase()` applied to a whole key (used under `DICT_FLAG_FOLD_FIX`). -/
def lowercase (b : Bytes) : Bytes := b.map lowerByte

/-- LMDB status code: success. -/
def MDB_SUCCESS : Int := 0

/-- LMDB status code: key/data pair not found. -/
def MDB_NOTFOUND : Int := -30798

/-- LMDB status code: key/data pair already exists. -/
def MDB_KEYEXIST : Int := -30799

/-- The two legacy wire encodings: with one trailing NUL byte appended to
key and value, or without. -/
inductive Enc where
  | withNull
  | noNull
deriving Repr, DecidableEq

/-- Encode a C string for the wire: `withNull` sends `strlen + 1` bytes
(the terminator included), `noNull` sends exactly `strlen` bytes. -/
def encode (e : Enc) (s : Bytes) : Bytes :=
  match e with
  | Enc.withNull => s ++ [0]
  | Enc.noNull => s

/-- Identity of a handle-owned buffer.  Lookup/sequence return pointers
into these buffers (`SCOPY` materializes engine bytes into them). -/
inductive Ptr where
  | valBuf
  | keyBuf
deriving Repr, DecidableEq

/-- Externally visible events of one adapter operation. -/
inductive Ev where
  | lockShared
  | lockExcl
  | unlock
  | engineCall (e : Enc)
  | warnDup
  | procExit
deriving Repr, DecidableEq

/-- Whether the advisory lock is still held after the trace: acquires set
it, explicit release clears it, and process exit clears it too because
`fcntl` advisory locks are process-scoped and released by the OS when the
process terminates. -/
def heldAfter (tr : List Ev) : Bool :=
  tr.foldl
    (fun h e =>
      match e with
      | Ev.lockShared => true
      | Ev.lockExcl => true
      | Ev.unlock => false
      | Ev.procExit => false
      | _ => h)
    false

/-- The `DICT_FLAG_*` bits recognized by this adapter, one boolean per
bit (`dict.h` is outside the given sources; the adapter only tests and
clears individual bits). -/
structure Flags where
  try1null : Bool
  try0null : Bool
  foldFix : Bool
  lock : Bool
  dupIgnore : Bool
  dupWarn : Bool
  dupReplace : Bool
  bulkUpdate : Bool
  worldRead : Bool
  fixed : Bool
deriving Repr, DecidableEq

/-- The mutable per-handle state of a `DICT_LMDB` (generic `DICT` members
plus the adapter's scratch buffers), over an engine state `σ`.  A buffer
is `none` while unallocated (null `VSTRING *`). -/
structure DictState (σ : Type) where
  flags : Flags
  error : Int
  keyBuf : Option Bytes
  valBuf : Option Bytes
  foldBuf : Option Bytes
  db : σ
deriving Repr, DecidableEq

/-- Cursor positioning requests (`MDB_FIRST` / `MDB_NEXT`). -/
inductive CursorOp where
  | first
  | next
deriving Repr, DecidableEq

/-- Interface of the engine binding (`slmdb_get` / `slmdb_put` /
`slmdb_del` / `slmdb_cursor_get`), over an abstract engine state `σ`.
`get` returns a status and, on success, the stored bytes; `put` takes the
`MDB_NOOVERWRITE` flag as a boolean; `cursorGet` returns status, key
bytes and value bytes (a null or empty `mv_data` is modelled as `[]`). -/
structure SlmdbOps (σ : Type) where
  get : σ → Bytes → Int × Bytes
  put : σ → Bytes → Bytes → Bool → Int × σ
  del : σ → Bytes → Int × σ
  cursorGet : σ → CursorOp → Int × Bytes × Bytes × σ

/-- Outcome of an adapter operation: a normal return carrying the C
return value, or process termination via `msg_panic` / `msg_fatal`. -/
inductive Exit (α : Type) where
  | ret (a : α)
  | panic
  | fatal
deriving Repr, DecidableEq

/-- Key actually probed: the name after optional case folding. -/
def foldedName (f : Flags) (name : Bytes) : Bytes :=
  if f.foldFix then lowercase name else name

/-- The optional key-folding block shared by lookup, update and delete:
under `DICT_FLAG_FOLD_FIX` the key is lowercased into the handle's fold
buffer and the folded copy is used from here on. -/
def applyFold {σ : Type} (s : DictState σ) (name : Bytes) :
    Bytes × DictState σ :=
  if s.flags.foldFix then
    (lowercase name, { s with foldBuf := some (lowercase name) })
  else
    (name, s)

/-- The unlock suffix of a trace: present when `DICT_FLAG_LOCK` is set
(the lock flag is never modified by the operations, so testing it on the
final state equals testing it at entry). -/
def unlockIf {σ : Type} (s : DictState σ) : List Ev :=
  if s.flags.lock then [Ev.unlock] else []

/-- Second probe block of `dict_lmdb_lookup` ("see if this LMDB file was
written with no null byte appended"), reached when the first probe did
not produce a result, followed by the shared-lock release.  `tr` is the
trace accumulated so far. -/
def dict_lmdb_lookup_try0 {σ : Type} (ops : SlmdbOps σ) (s : DictState σ)
    (name : Bytes) (tr : List Ev) :
    Exit (Option Ptr) × DictState σ × List Ev :=
  if s.flags.try0null then
    let r := ops.get s.db name
    if r.1 = 0 then
      (Exit.ret (some Ptr.valBuf),
       { s with
         flags := { s.flags with try1null := false },
         valBuf := some r.2 },
       tr ++ [Ev.engineCall Enc.noNull] ++ unlockIf s)
    else if r.1 = MDB_NOTFOUND then
      (Exit.ret none, s, tr ++ [Ev.engineCall Enc.noNull] ++ unlockIf s)
    else
      (Exit.fatal, s, tr ++ [Ev.engineCall Enc.noNull, Ev.procExit])
  else
    (Exit.ret none, s, tr ++ unlockIf s)

/-- The two probe blocks of `dict_lmdb_lookup`, entered with the folded
key, under the shared lock (`trLock` is the lock-acquisition trace).
The first block probes the trailing-null encoding when enabled: on a hit
it clears the other try flag and returns the copied value; on
`MDB_NOTFOUND` it falls through to the second probe block; any other
status is fatal. -/
def dict_lmdb_lookup_probes {σ : Type} (ops : SlmdbOps σ) (s : DictState σ)
    (name : Bytes) (trLock : List Ev) :
    Exit (Option Ptr) × DictState σ × List Ev :=
  if s.flags.try1null then
    let r := ops.get s.db (name ++ [0])
    if r.1 = 0 then
      (Exit.ret (some Ptr.valBuf),
       { s with
         flags := { s.flags with try0null := false },
         valBuf := some r.2 },
       trLock ++ [Ev.engineCall Enc.withNull] ++ unlockIf s)
    else if r.1 = MDB_NOTFOUND then
      dict_lmdb_lookup_try0 ops s name (trLock ++ [Ev.engineCall Enc.withNull])
    else
      (Exit.fatal, s, trLock ++ [Ev.engineCall Enc.withNull, Ev.procExit])
  else
    dict_lmdb_lookup_try0 ops s name trLock

/-- `dict_lmdb_lookup`: find a database entry.  Returns the result
pointer (`none` for C null = not found), the final handle state and the
event trace. -/
def dict_lmdb_lookup {σ : Type} (ops : SlmdbOps σ) (s0 : DictState σ)
    (name0 : Bytes) : Exit (Option Ptr) × DictState σ × List Ev :=
  let s1 : DictState σ := { s0 with error := 0 }
  if s1.flags.try1null = false ∧ s1.flags.try0null = false then
    (Exit.panic, s1, [Ev.procExit])
  else
    let s2 : DictState σ := (applyFold s1 name0).2
    dict_lmdb_lookup_probes ops s2 (applyFold s1 name0).1
      (if s2.flags.lock then [Ev.lockShared] else [])

/-- The post-fold body of `dict_lmdb_update`: if both encoding-try flags
are still set, collapse them to the platform default
(`noTrailingNull` is the compile-time `LMDB_NO_TRAILING_NULL`
convention); append the trailing null byte to key and value when the
resolved encoding calls for it; do the write under the exclusive lock
(`MDB_NOOVERWRITE` unless duplicate-replace is configured) and classify
the engine status: success, "key exists" handled per duplicate policy,
anything else fatal. -/
def dict_lmdb_update_body {σ : Type} (noTrailingNull : Bool)
    (ops : SlmdbOps σ) (s2 : DictState σ) (name value : Bytes) :
    Exit Int × DictState σ × List Ev :=
  let s3 : DictState σ :=
    if s2.flags.try1null ∧ s2.flags.try0null then
      if noTrailingNull then
        { s2 with flags := { s2.flags with try1null := false } }
      else
        { s2 with flags := { s2.flags with try0null := false } }
    else s2
  let enc : Enc := if s3.flags.try1null then Enc.withNull else Enc.noNull
  let trLock : List Ev := if s3.flags.lock then [Ev.lockExcl] else []
  let r := ops.put s3.db (encode enc name) (encode enc value)
             (s3.flags.dupReplace = false)
  let s4 : DictState σ := { s3 with db := r.2 }
  if r.1 = 0 then
    (Exit.ret r.1, s4, trLock ++ [Ev.engineCall enc] ++ unlockIf s4)
  else if r.1 = MDB_KEYEXIST then
    if s4.flags.dupIgnore then
      (Exit.ret r.1, s4, trLock ++ [Ev.engineCall enc] ++ unlockIf s4)
    else if s4.flags.dupWarn then
      (Exit.ret r.1, s4,
       trLock ++ [Ev.engineCall enc, Ev.warnDup] ++ unlockIf s4)
    else
      (Exit.fatal, s4, trLock ++ [Ev.engineCall enc, Ev.procExit])
  else
    (Exit.fatal, s4, trLock ++ [Ev.engineCall enc, Ev.procExit])

/-- `dict_lmdb_update`: add or update a database entry.  Returns the C
`status` return value, the final handle state and the event trace. -/
def dict_lmdb_update {σ : Type} (noTrailingNull : Bool) (ops : SlmdbOps σ)
    (s0 : DictState σ) (name0 value : Bytes) :
    Exit Int × DictState σ × List Ev :=
  let s1 : DictState σ := { s0 with error := 0 }
  if s1.flags.try1null = false ∧ s1.flags.try0null = false then
    (Exit.panic, s1, [Ev.procExit])
  else
    dict_lmdb_update_body noTrailingNull ops (applyFold s1 name0).2
      (applyFold s1 name0).1 value

/-- Second probe block of `dict_lmdb_delete`, reached with the status of
the first block (`st1`; positive means "not deleted yet"), followed by
the exclusive-lock release. -/
def dict_lmdb_delete_try0 {σ : Type} (ops : SlmdbOps σ) (s : DictState σ)
    (name : Bytes) (st1 : Int) (tr : List Ev) :
    Exit Int × DictState σ × List Ev :=
  if 0 < st1 ∧ s.flags.try0null then
    let r := ops.del s.db name
    if r.1 = 0 then
      (Exit.ret 0,
       { s with
         flags := { s.flags with try1null := false },
         db := r.2 },
       tr ++ [Ev.engineCall Enc.noNull] ++ unlockIf s)
    else if r.1 = MDB_NOTFOUND then
      (Exit.ret 1, { s with db := r.2 },
       tr ++ [Ev.engineCall Enc.noNull] ++ unlockIf s)
    else
      (Exit.fatal, { s with db := r.2 },
       tr ++ [Ev.engineCall Enc.noNull, Ev.procExit])
  else
    (Exit.ret st1, s, tr ++ unlockIf s)

/-- The two probe blocks of `dict_lmdb_delete`, entered with the folded
key under the exclusive lock.  The C function initializes `status = 1`
("not found"); the first block probes the trailing-null encoding when
enabled (clearing the other encoding's try flag on a successful
deletion), falling through to the second block with its status. -/
def dict_lmdb_delete_probes {σ : Type} (ops : SlmdbOps σ) (s : DictState σ)
    (name : Bytes) (trLock : List Ev) : Exit Int × DictState σ × List Ev :=
  if s.flags.try1null then
    let r := ops.del s.db (name ++ [0])
    if r.1 = 0 then
      dict_lmdb_delete_try0 ops
        { s with
          flags := { s.flags with try0null := false },
          db := r.2 }
        name 0 (trLock ++ [Ev.engineCall Enc.withNull])
    else if r.1 = MDB_NOTFOUND then
      dict_lmdb_delete_try0 ops { s with db := r.2 } name 1
        (trLock ++ [Ev.engineCall Enc.withNull])
    else
      (Exit.fatal, { s with db := r.2 },
       trLock ++ [Ev.engineCall Enc.withNull, Ev.procExit])
  else
    dict_lmdb_delete_try0 ops s name 1 trLock

/-- `dict_lmdb_delete`: delete one entry.  Returns 0 on a successful
deletion, 1 if neither encoding held the key; any engine status other
than success or `MDB_NOTFOUND` is fatal. -/
def dict_lmdb_delete {σ : Type} (ops : SlmdbOps σ) (s0 : DictState σ)
    (name0 : Bytes) : Exit Int × DictState σ × List Ev :=
  let s1 : DictState σ := { s0 with error := 0 }
  if s1.flags.try1null = false ∧ s1.flags.try0null = false then
    (Exit.panic, s1, [Ev.procExit])
  else
    let s2 : DictState σ := (applyFold s1 name0).2
    dict_lmdb_delete_probes ops s2 (applyFold s1 name0).1
      (if s2.flags.lock then [Ev.lockExcl] else [])

/-- `DICT_SEQ_FUN_FIRST` (from the generic dict(3) interface). -/
def DICT_SEQ_FUN_FIRST : Nat := 0

/-- `DICT_SEQ_FUN_NEXT` (from the generic dict(3) interface). -/
def DICT_SEQ_FUN_NEXT : Nat := 1

/-- `dict_lmdb_sequence`: cursor traversal.  On success the out
parameters `*key` and `*value` are set to pointers into the handle-owned
`key_buf` / `val_buf`; the value pointer is set only when the engine
returned a non-null, non-empty value (both modelled as a non-empty byte
list).  Returns (status, out-key, out-value), final state, trace. -/
def dict_lmdb_sequence {σ : Type} (ops : SlmdbOps σ) (s0 : DictState σ)
    (function : Nat) :
    Exit (Int × Option Ptr × Option Ptr) × DictState σ × List Ev :=
  let s1 : DictState σ := { s0 with error := 0 }
  if function ≠ DICT_SEQ_FUN_FIRST ∧ function ≠ DICT_SEQ_FUN_NEXT then
    (Exit.panic, s1, [Ev.procExit])
  else
    let op : CursorOp :=
      if function = DICT_SEQ_FUN_FIRST then CursorOp.first else CursorOp.next
    let trLock : List Ev := if s1.flags.lock then [Ev.lockShared] else []
    let r := ops.cursorGet s1.db op
    let s2 : DictState σ := { s1 with db := r.2.2.2 }
    let trUnlock : List Ev := if s2.flags.lock then [Ev.unlock] else []
    if r.1 = 0 then
      let s3 : DictState σ :=
        if r.2.2.1 ≠ ([] : Bytes) then
          { s2 with keyBuf := some r.2.1, valBuf := some r.2.2.1 }
        else
          { s2 with keyBuf := some r.2.1 }
      let vout : Option Ptr :=
        if r.2.2.1 ≠ ([] : Bytes) then some Ptr.valBuf else none
      (Exit.ret (0, some Ptr.keyBuf, vout), s3, trLock ++ trUnlock)
    else if r.1 = MDB_NOTFOUND then
      (Exit.ret (1, none, none), s2, trLock ++ trUnlock)
    else
      (Exit.fatal, s2, trLock ++ [Ev.procExit])

/-! ## Ideal engine instance

`slmdb.c` / the LMDB library are outside the given sources; the spec
describes the engine only at its interface boundary (get / put / delete /
cursor with success / not-found / key-exists statuses).  The instance
below realizes that interface over an association list. -/

/-- Engine state: the stored key/value pairs, most recent insertion
first. -/
abbrev AssocDb := List (Bytes × Bytes)

/-- Modelled from the spec: engine point query — `some v` when the exact
byte-for-byte key is present (`slmdb_get`, whose code is not under
`src/`). -/
def dbGet (db : AssocDb) (k : Bytes) : Option Bytes :=
  (db.find? (fun e => e.1 = k)).map (fun e => e.2)

/-- Modelled from the spec: engine store — replaces the value when the
key is present, inserts otherwise (`mdb_put` without `MDB_NOOVERWRITE`). -/
def dbPut (db : AssocDb) (k v : Bytes) : AssocDb :=
  (k, v) :: db.filter (fun e => e.1 ≠ k)

/-- Modelled from the spec: engine delete — removes the key's entries. -/
def dbDel (db : AssocDb) (k : Bytes) : AssocDb :=
  db.filter (fun e => e.1 ≠ k)

/-- Modelled from the spec: the engine binding over `AssocDb`, with the
status classification of §6 — `get` yields not-found or the stored bytes;
`put` under `MDB_NOOVERWRITE` yields key-exists when the key is present;
`del` yields not-found when absent.  The cursor position is
engine-internal state that no claim about ideal traversal depends on;
`cursorGet` here reports the first stored entry or end-of-database. -/
def idealOps : SlmdbOps AssocDb where
  get := fun db k =>
    match dbGet db k with
    | some v => (0, v)
    | none => (MDB_NOTFOUND, [])
  put := fun db k v noOver =>
    if noOver ∧ (dbGet db k).isSome then (MDB_KEYEXIST, db)
    else (0, dbPut db k v)
  del := fun db k =>
    if (dbGet db k).isSome then (0, dbDel db k) else (MDB_NOTFOUND, db)
  cursorGet := fun db _ =>
    match db with
    | [] => (MDB_NOTFOUND, [], [], db)
    | e :: _ => (0, e.1, e.2, db)

/-! ## Open / bootstrap -/

/-- Compile-time platform description: width of `size_t` in bytes
(`sizeof(size_t)`, equal to `sizeof(ssize_t)`), bits per byte
(`CHAR_BIT`), and whether `LMDB_NO_TRAILING_NULL` is defined for the
target platform family. -/
structure Platform where
  sizeofSizeT : Nat
  charBit : Nat
  lmdbNoTrailingNull : Bool
deriving Repr, DecidableEq

/-- `SSIZE_T_MAX`: the largest representable signed size
(`__MAXINT__(ssize_t)`, two's complement). -/
def SSIZE_T_MAX (p : Platform) : Nat := 2 ^ (p.sizeofSizeT * p.charBit - 1) - 1

/-- `DICT_LMDB_SIZE_INCR`: increase the map size by one bit per retry. -/
def DICT_LMDB_SIZE_INCR : Nat := 2

/-- `DICT_LMDB_SIZE_MAX`: the maximum map size. -/
def DICT_LMDB_SIZE_MAX (p : Platform) : Nat := SSIZE_T_MAX p

/-- `DICT_LMDB_API_RETRY_LIMIT`: retries per dict(3) API call. -/
def DICT_LMDB_API_RETRY_LIMIT : Nat := 2

/-- `DICT_LMDB_BULK_RETRY_LIMIT`: retries per bulk-mode transaction,
`2 * sizeof(size_t) * CHAR_BIT`. -/
def DICT_LMDB_BULK_RETRY_LIMIT (p : Platform) : Nat :=
  2 * p.sizeofSizeT * p.charBit

/-- The flag word installed on the handle by `dict_lmdb_open`:
`dict_flags | DICT_FLAG_FIXED`, and if the caller specified neither
encoding-try flag, both are turned on. -/
def dict_lmdb_open_flags (dictFlags : Flags) : Flags :=
  let f : Flags := { dictFlags with fixed := true }
  if f.try0null = false ∧ f.try1null = false then
    { f with try0null := true, try1null := true }
  else f

/-- Arguments of the `slmdb_init` and `slmdb_control` calls issued by
`dict_lmdb_open` for one engine session. -/
structure SessionConfig where
  initialMapSize : Nat
  sizeIncr : Nat
  sizeMax : Nat
  apiRetryLimit : Nat
  bulkRetryLimit : Nat
deriving Repr, DecidableEq

/-- The engine-session configuration issued by `dict_lmdb_open`:
`slmdb_init(&slmdb, dict_lmdb_map_size, DICT_LMDB_SIZE_INCR,
DICT_LMDB_SIZE_MAX)` followed by `slmdb_control` with
`SLMDB_CTL_API_RETRY_LIMIT` and `SLMDB_CTL_BULK_RETRY_LIMIT`. -/
def dict_lmdb_session_config (p : Platform) (dict_lmdb_map_size : Nat) :
    SessionConfig where
  initialMapSize := dict_lmdb_map_size
  sizeIncr := DICT_LMDB_SIZE_INCR
  sizeMax := DICT_LMDB_SIZE_MAX p
  apiRetryLimit := DICT_LMDB_API_RETRY_LIMIT
  bulkRetryLimit := DICT_LMDB_BULK_RETRY_LIMIT p

/-- Modelled from the spec: the degraded stand-in handle built by
`dict_surrogate` (whose code, `dict_surrogate.c`, is not under `src/`):
it captures one diagnostic at construction and every subsequent
operation fails with that same diagnostic. -/
structure SurrogateDict where
  diag : String
deriving Repr, DecidableEq

/-- Modelled from the spec: any operation on a degraded stand-in handle —
lookup, update, delete or sequence all fail the same way, returning the
captured diagnostic as the error, without terminating the process. -/
def surrogate_op (d : SurrogateDict) : Exit String := Exit.ret d.diag

/-- Result of `dict_lmdb_open`: either the degraded stand-in handle or a
real handle (its initial state plus the engine-session configuration). -/
inductive OpenOutcome (σ : Type) where
  | surrogate (d : SurrogateDict)
  | opened (s : DictState σ) (cfg : SessionConfig)
deriving Repr, DecidableEq

/-- `dict_lmdb_open`.  The environment supplies the engine results
(`initStatus` for `slmdb_init`, `openStatus` for `slmdb_open`, the
engine's `mdb_strerror` rendering, whether `fstat` succeeds) and the
initial engine state.  On an engine init/open failure the function
returns the surrogate built from `"open database %s: %s"`; otherwise it
bundles up the handle (an `fstat` failure is fatal). -/
def dict_lmdb_open {σ : Type} (p : Platform) (dict_lmdb_map_size : Nat)
    (initStatus openStatus : Int) (mdbStrerror : Int → String)
    (fstatOk : Bool) (path : String) (dictFlags : Flags) (db0 : σ) :
    Exit (OpenOutcome σ) :=
  let mdb_path : String := path ++ "." ++ "lmdb"
  if initStatus ≠ 0 ∨ openStatus ≠ 0 then
    let failStatus : Int := if initStatus ≠ 0 then initStatus else openStatus
    Exit.ret (OpenOutcome.surrogate
      { diag := "open database " ++ mdb_path ++ ": " ++ mdbStrerror failStatus })
  else if fstatOk = false then
    Exit.fatal
  else
    Exit.ret (OpenOutcome.opened
      { flags := dict_lmdb_open_flags dictFlags
        error := 0
        keyBuf := none
        valBuf := none
        foldBuf := none
        db := db0 }
      (dict_lmdb_session_config p dict_lmdb_map_size))

/-! ## Derived notions used in the statements -/

/-- The C string the caller reads through the pointer returned by a
successful lookup: the contents of the handle's value buffer up to the
terminator.  `none` when lookup did not return a buffer pointer. -/
def lookupResult (ops : SlmdbOps AssocDb) (s : DictState AssocDb)
    (name : Bytes) : Option Bytes :=
  match dict_lmdb_lookup ops s name with
  | (Exit.ret (some Ptr.valBuf), s', _) => some (cstr ((s'.valBuf).getD []))
  | _ => none

/-- The handle has resolved the encoding to `e`: the try-flag of the
other encoding has been cleared. -/
def resolvedTo (f : Flags) (e : Enc) : Prop :=
  match e with
  | Enc.withNull => f.try1null = true ∧ f.try0null = false
  | Enc.noNull => f.try0null = true ∧ f.try1null = false

/-- The encoding a write resolves to: the platform default when both try
flags are still set, otherwise the already-resolved one (mirrors the
collapse at the top of `dict_lmdb_update`). -/
def updateEnc (noTrailingNull : Bool) (f : Flags) : Enc :=
  if f.try1null ∧ f.try0null then
    (if noTrailingNull then Enc.noNull else Enc.withNull)
  else if f.try1null = true then Enc.withNull else Enc.noNull

/-- A flag word with every bit clear (`dict_flags = 0`). -/
def flagsNone : Flags where
  try1null := false
  try0null := false
  foldFix := false
  lock := false
  dupIgnore := false
  dupWarn := false
  dupReplace := false
  bulkUpdate := false
  worldRead := false
  fixed := false

/-- A sample handle state over the ideal engine, for concrete runs. -/
def exState (t1 t0 : Bool) (db : AssocDb) : DictState AssocDb where
  flags := { flagsNone with try1null := t1, try0null := t0, lock := true }
  error := 0
  keyBuf := none
  valBuf := none
  foldBuf := none
  db := db

/-- A sample handle state with a chosen full flag word. -/
def exStateF (f : Flags) (db : AssocDb) : DictState AssocDb where
  flags := f
  error := 0
  keyBuf := none
  valBuf := none
  foldBuf := none
  db := db

/-! ## Theorems -/

/-! Helper lemmas about the fold block, the ideal engine and traces. -/

@[simp]
theorem applyFold_fst {σ : Type} (s : DictState σ) (name : Bytes) :
    (applyFold s name).1 = foldedName s.flags name := by
  unfold applyFold foldedName
  split <;> simp_all

@[simp]
theorem applyFold_flags {σ : Type} (s : DictState σ) (name : Bytes) :
    (applyFold s name).2.flags = s.flags := by
  unfold applyFold
  split <;> rfl

@[simp]
theorem applyFold_db {σ : Type} (s : DictState σ) (name : Bytes) :
    (applyFold s name).2.db = s.db := by
  unfold applyFold
  split <;> rfl

@[simp]
theorem applyFold_error {σ : Type} (s : DictState σ) (name : Bytes) :
    (applyFold s name).2.error = s.error := by
  unfold applyFold
  split <;> rfl

@[simp]
theorem applyFold_valBuf {σ : Type} (s : DictState σ) (name : Bytes) :
    (applyFold s name).2.valBuf = s.valBuf := by
  unfold applyFold
  split <;> rfl

@[simp]
theorem applyFold_keyBuf {σ : Type} (s : DictState σ) (name : Bytes) :
    (applyFold s name).2.keyBuf = s.keyBuf := by
  unfold applyFold
  split <;> rfl

theorem idealOps_get_none {db : AssocDb} {k : Bytes} (h : dbGet db k = none) :
    idealOps.get db k = (MDB_NOTFOUND, []) := by
  simp [idealOps, h]

theorem idealOps_get_some {db : AssocDb} {k v : Bytes}
    (h : dbGet db k = some v) : idealOps.get db k = (0, v) := by
  simp [idealOps, h]

theorem idealOps_del_none {db : AssocDb} {k : Bytes} (h : dbGet db k = none) :
    idealOps.del db k = (MDB_NOTFOUND, db) := by
  simp [idealOps, h]

theorem idealOps_del_some {db : AssocDb} {k v : Bytes}
    (h : dbGet db k = some v) : idealOps.del db k = (0, dbDel db k) := by
  simp [idealOps, h]

theorem idealOps_put_replace (db : AssocDb) (k v : Bytes) :
    idealOps.put db k v false = (0, dbPut db k v) := by
  simp [idealOps]

theorem idealOps_put_new {db : AssocDb} {k : Bytes} (v : Bytes)
    (h : dbGet db k = none) : idealOps.put db k v true = (0, dbPut db k v) := by
  simp [idealOps, h]

theorem idealOps_put_exists {db : AssocDb} {k w : Bytes} (v : Bytes)
    (h : dbGet db k = some w) :
    idealOps.put db k v true = (MDB_KEYEXIST, db) := by
  simp [idealOps, h]

@[simp]
theorem dbGet_dbPut_self (db : AssocDb) (k v : Bytes) :
    dbGet (dbPut db k v) k = some v := by
  simp [dbGet, dbPut]

@[simp]
theorem idealOps_get_put_self (db : AssocDb) (k v : Bytes) :
    idealOps.get (dbPut db k v) k = (0, v) := by
  simp [idealOps]

@[simp]
theorem foldedName_mk (t1 t0 lk di dw dr bu wr fx : Bool) (f : Flags)
    (n : Bytes) :
    foldedName (Flags.mk t1 t0 f.foldFix lk di dw dr bu wr fx) n
      = foldedName f n := rfl

theorem cstr_of_not_mem : ∀ {v : Bytes}, (0 : Nat) ∉ v → cstr v = v := by
  intro v hv
  induction v with
  | nil => rfl
  | cons a t ih =>
    simp only [List.mem_cons, not_or] at hv
    simp [cstr, List.takeWhile_cons, Ne.symm hv.1]
    simpa [cstr] using ih hv.2

theorem cstr_append_null : ∀ {v : Bytes}, (0 : Nat) ∉ v →
    cstr (v ++ [0]) = v := by
  intro v hv
  induction v with
  | nil => rfl
  | cons a t ih =>
    simp only [List.mem_cons, not_or] at hv
    simp [cstr, List.takeWhile_cons, Ne.symm hv.1]
    simpa [cstr] using ih hv.2

theorem lookup_lock {σ : Type} (ops : SlmdbOps σ) (s : DictState σ)
    (name : Bytes) :
    heldAfter (dict_lmdb_lookup ops s name).2.2 = false ∧
    (s.flags.lock = true → (dict_lmdb_lookup ops s name).1 ≠ Exit.panic →
      (dict_lmdb_lookup ops s name).2.2.head? = some Ev.lockShared) := by
  by_cases h1 : s.flags.try1null = true <;>
    by_cases h0 : s.flags.try0null = true <;>
      by_cases hlk : s.flags.lock = true <;>
        simp [dict_lmdb_lookup, dict_lmdb_lookup_probes,
          dict_lmdb_lookup_try0, unlockIf, h1, h0, hlk] <;>
        (repeat' split) <;> simp_all [heldAfter]

theorem update_lock {σ : Type} (nt : Bool) (ops : SlmdbOps σ)
    (s : DictState σ) (name value : Bytes) :
    heldAfter (dict_lmdb_update nt ops s name value).2.2 = false ∧
    (s.flags.lock = true →
      (dict_lmdb_update nt ops s name value).1 ≠ Exit.panic →
      (dict_lmdb_update nt ops s name value).2.2.head? =
        some Ev.lockExcl) := by
  by_cases h1 : s.flags.try1null = true <;>
    by_cases h0 : s.flags.try0null = true <;>
      by_cases hlk : s.flags.lock = true <;> cases nt <;>
        simp [dict_lmdb_update, dict_lmdb_update_body, unlockIf, h1, h0,
          hlk] <;>
        (repeat' split) <;> simp_all [heldAfter]

theorem delete_lock {σ : Type} (ops : SlmdbOps σ) (s : DictState σ)
    (name : Bytes) :
    heldAfter (dict_lmdb_delete ops s name).2.2 = false ∧
    (s.flags.lock = true → (dict_lmdb_delete ops s name).1 ≠ Exit.panic →
      (dict_lmdb_delete ops s name).2.2.head? = some Ev.lockExcl) := by
  by_cases h1 : s.flags.try1null = true <;>
    by_cases h0 : s.flags.try0null = true <;>
      by_cases hlk : s.flags.lock = true <;>
        simp [dict_lmdb_delete, dict_lmdb_delete_probes,
          dict_lmdb_delete_try0, unlockIf, h1, h0, hlk] <;>
        (repeat' split) <;> simp_all [heldAfter]

theorem sequence_lock {σ : Type} (ops : SlmdbOps σ) (s : DictState σ)
    (fn : Nat) :
    heldAfter (dict_lmdb_sequence ops s fn).2.2 = false ∧
    (s.flags.lock = true → (dict_lmdb_sequence ops s fn).1 ≠ Exit.panic →
      (dict_lmdb_sequence ops s fn).2.2.head? = some Ev.lockShared) := by
  by_cases hf : fn = DICT_SEQ_FUN_FIRST <;>
    by_cases hn : fn = DICT_SEQ_FUN_NEXT <;>
      by_cases hlk : s.flags.lock = true <;>
        simp [dict_lmdb_sequence, DICT_SEQ_FUN_FIRST, DICT_SEQ_FUN_NEXT,
          hf, hn, hlk] <;>
        (repeat' split) <;> simp_all [heldAfter]

/-- C6: on every operation (lookup, update, delete, sequence) with any
engine behaviour, the advisory lock is not held once the operation ends:
explicitly released on the found and not-found paths, released by the
operating system at process exit on the fatal paths (`fcntl` locks are
process-scoped; modelled by the `procExit` trace event).  When locking
is enabled the trace starts with the matching acquisition — shared for
lookup and sequence, exclusive for update and delete — on every
non-panic path. -/
theorem C6_lock_released (σ : Type) (ops : SlmdbOps σ) (s : DictState σ)
    (name value : Bytes) (nt : Bool) (fn : Nat) :
    heldAfter (dict_lmdb_lookup ops s name).2.2 = false ∧
    heldAfter (dict_lmdb_update nt ops s name value).2.2 = false ∧
    heldAfter (dict_lmdb_delete ops s name).2.2 = false ∧
    heldAfter (dict_lmdb_sequence ops s fn).2.2 = false ∧
    (s.flags.lock = true →
      ((dict_lmdb_lookup ops s name).1 ≠ Exit.panic →
        (dict_lmdb_lookup ops s name).2.2.head? = some Ev.lockShared) ∧
      ((dict_lmdb_update nt ops s name value).1 ≠ Exit.panic →
        (dict_lmdb_update nt ops s name value).2.2.head? =
          some Ev.lockExcl) ∧
      ((dict_lmdb_delete ops s name).1 ≠ Exit.panic →
        (dict_lmdb_delete ops s name).2.2.head? = some Ev.lockExcl) ∧
      ((dict_lmdb_sequence ops s fn).1 ≠ Exit.panic →
        (dict_lmdb_sequence ops s fn).2.2.head? = some Ev.lockShared)) :=
  ⟨(lookup_lock ops s name).1, (update_lock nt ops s name value).1,
   (delete_lock ops s name).1, (sequence_lock ops s fn).1,
   fun hl =>
     ⟨(lookup_lock ops s name).2 hl, (update_lock nt ops s name value).2 hl,
      (delete_lock ops s name).2 hl, (sequence_lock ops s fn).2 hl⟩⟩

/-- C6 witness: a concrete locked lookup acquires the shared lock first
and does not hold it at the end. -/
theorem C6_lock_released_witness :
    heldAfter
        (dict_lmdb_lookup idealOps (exState true true [([97], [49])])
          [97]).2.2 = false ∧
    (dict_lmdb_lookup idealOps (exState true true [([97], [49])])
        [97]).2.2.head? = some Ev.lockShared :=
  have h := C6_lock_released AssocDb idealOps
    (exState true true [([97], [49])]) [97] [50] false 0
  ⟨h.1, (h.2.2.2.2 rfl).1 (by decide)⟩

theorem lookup_ret_valBuf {σ : Type} (ops : SlmdbOps σ) (s : DictState σ)
    (name : Bytes) :
    ∀ p, (dict_lmdb_lookup ops s name).1 = Exit.ret (some p) →
      p = Ptr.valBuf := by
  by_cases h1 : s.flags.try1null = true <;>
    by_cases h0 : s.flags.try0null = true <;>
      simp [dict_lmdb_lookup, dict_lmdb_lookup_probes,
        dict_lmdb_lookup_try0, unlockIf, h1, h0] <;>
      (repeat' split) <;> simp_all

theorem lookup_frame {σ : Type} (ops : SlmdbOps σ) (s : DictState σ)
    (name : Bytes) (b : Option Bytes) :
    (dict_lmdb_lookup ops { s with valBuf := b } name).1 =
      (dict_lmdb_lookup ops s name).1 ∧
    (∀ p, (dict_lmdb_lookup ops s name).1 = Exit.ret (some p) →
      (dict_lmdb_lookup ops { s with valBuf := b } name).2.1.valBuf =
        (dict_lmdb_lookup ops s name).2.1.valBuf) := by
  by_cases h1 : s.flags.try1null = true <;>
    by_cases h0 : s.flags.try0null = true <;>
      simp [dict_lmdb_lookup, dict_lmdb_lookup_probes,
        dict_lmdb_lookup_try0, unlockIf, h1, h0] <;>
      (repeat' split) <;> simp_all

theorem sequence_ret_ptrs {σ : Type} (ops : SlmdbOps σ) (s : DictState σ)
    (fn : Nat) :
    ∀ st ko vo, (dict_lmdb_sequence ops s fn).1 = Exit.ret (st, ko, vo) →
      (∀ p, ko = some p → p = Ptr.keyBuf) ∧
      (∀ p, vo = some p → p = Ptr.valBuf) := by
  by_cases hf : fn = DICT_SEQ_FUN_FIRST <;>
    by_cases hn : fn = DICT_SEQ_FUN_NEXT <;>
      simp [dict_lmdb_sequence, DICT_SEQ_FUN_FIRST, DICT_SEQ_FUN_NEXT,
        hf, hn] <;>
      (repeat' split) <;> simp_all

theorem sequence_frame {σ : Type} (ops : SlmdbOps σ) (s : DictState σ)
    (fn : Nat) (bk b : Option Bytes) :
    (dict_lmdb_sequence ops { s with keyBuf := bk, valBuf := b } fn).1 =
      (dict_lmdb_sequence ops s fn).1 ∧
    (∀ st ko vo, (dict_lmdb_sequence ops s fn).1 = Exit.ret (st, ko, vo) →
      (ko.isSome = true →
        (dict_lmdb_sequence ops { s with keyBuf := bk, valBuf := b }
            fn).2.1.keyBuf =
          (dict_lmdb_sequence ops s fn).2.1.keyBuf) ∧
      (vo.isSome = true →
        (dict_lmdb_sequence ops { s with keyBuf := bk, valBuf := b }
            fn).2.1.valBuf =
          (dict_lmdb_sequence ops s fn).2.1.valBuf)) := by
  by_cases hf : fn = DICT_SEQ_FUN_FIRST <;>
    by_cases hn : fn = DICT_SEQ_FUN_NEXT <;>
      simp [dict_lmdb_sequence, DICT_SEQ_FUN_FIRST, DICT_SEQ_FUN_NEXT,
        hf, hn] <;>
      (repeat' split) <;> simp_all

/-- C10: results are materialized into handle-owned buffers shared
across calls — every pointer a successful lookup returns is the handle's
value buffer, a successful sequence returns the handle's key buffer and
(for non-empty values) the same shared value buffer — and a call's final
buffer contents do not depend on the buffers' previous contents: on
every successful call the materialized buffer is overwritten, so the
bytes behind a pointer returned by an earlier lookup or sequence on the
same handle are replaced. -/
theorem C10_shared_buffers (σ : Type) (ops : SlmdbOps σ) (s : DictState σ)
    (name : Bytes) (fn : Nat) (bk b : Option Bytes) :
    (∀ p, (dict_lmdb_lookup ops s name).1 = Exit.ret (some p) →
      p = Ptr.valBuf) ∧
    ((dict_lmdb_lookup ops { s with valBuf := b } name).1 =
      (dict_lmdb_lookup ops s name).1) ∧
    (∀ p, (dict_lmdb_lookup ops s name).1 = Exit.ret (some p) →
      (dict_lmdb_lookup ops { s with valBuf := b } name).2.1.valBuf =
        (dict_lmdb_lookup ops s name).2.1.valBuf) ∧
    (∀ st ko vo, (dict_lmdb_sequence ops s fn).1 = Exit.ret (st, ko, vo) →
      (∀ p, ko = some p → p = Ptr.keyBuf) ∧
      (∀ p, vo = some p → p = Ptr.valBuf)) ∧
    ((dict_lmdb_sequence ops { s with keyBuf := bk, valBuf := b } fn).1 =
      (dict_lmdb_sequence ops s fn).1) ∧
    (∀ st ko vo, (dict_lmdb_sequence ops s fn).1 = Exit.ret (st, ko, vo) →
      (ko.isSome = true →
        (dict_lmdb_sequence ops { s with keyBuf := bk, valBuf := b }
            fn).2.1.keyBuf =
          (dict_lmdb_sequence ops s fn).2.1.keyBuf) ∧
      (vo.isSome = true →
        (dict_lmdb_sequence ops { s with keyBuf := bk, valBuf := b }
            fn).2.1.valBuf =
          (dict_lmdb_sequence ops s fn).2.1.valBuf)) :=
  ⟨lookup_ret_valBuf ops s name, (lookup_frame ops s name b).1,
   (lookup_frame ops s name b).2, sequence_ret_ptrs ops s fn,
   (sequence_frame ops s fn bk b).1, (sequence_frame ops s fn bk b).2⟩

/-- C10 witness: concrete successful lookup and sequence runs end with
the same buffer contents whatever the buffers held before. -/
theorem C10_shared_buffers_witness :
    (dict_lmdb_lookup idealOps
        { exState true true [([97, 0], [49, 0])] with valBuf := some [7] }
        [97]).2.1.valBuf =
      (dict_lmdb_lookup idealOps (exState true true [([97, 0], [49, 0])])
        [97]).2.1.valBuf ∧
    (dict_lmdb_sequence idealOps
        { exState true true [([97], [49])] with
          keyBuf := some [8], valBuf := some [7] } 0).2.1.keyBuf =
      (dict_lmdb_sequence idealOps (exState true true [([97], [49])])
        0).2.1.keyBuf :=
  have h := C10_shared_buffers AssocDb idealOps
    (exState true true [([97, 0], [49, 0])]) [97] 0 (some [8]) (some [7])
  have h2 := C10_shared_buffers AssocDb idealOps
    (exState true true [([97], [49])]) [97] 0 (some [8]) (some [7])
  ⟨h.2.2.1 Ptr.valBuf (by decide),
   (h2.2.2.2.2.2 0 (some Ptr.keyBuf) (some Ptr.valBuf) (by decide)).1 rfl⟩

/-- C7: every call to lookup, update or delete on a handle with neither
encoding-try flag set, and every call to sequence with a mode other than
`DICT_SEQ_FUN_FIRST` or `DICT_SEQ_FUN_NEXT`, is a programming-error
panic (`msg_panic`, immediate process termination), never a recoverable
runtime failure. -/
theorem C7_misconfiguration_panics :
    (∀ (σ : Type) (ops : SlmdbOps σ) (s : DictState σ) (name value : Bytes)
        (nt : Bool),
      s.flags.try1null = false → s.flags.try0null = false →
      (dict_lmdb_lookup ops s name).1 = Exit.panic ∧
      (dict_lmdb_update nt ops s name value).1 = Exit.panic ∧
      (dict_lmdb_delete ops s name).1 = Exit.panic) ∧
    (∀ (σ : Type) (ops : SlmdbOps σ) (s : DictState σ) (f : Nat),
      f ≠ DICT_SEQ_FUN_FIRST → f ≠ DICT_SEQ_FUN_NEXT →
      (dict_lmdb_sequence ops s f).1 = Exit.panic) := by
  constructor
  · intro σ ops s name value nt h1 h0
    refine ⟨?_, ?_, ?_⟩ <;>
      simp [dict_lmdb_lookup, dict_lmdb_update, dict_lmdb_delete, h1, h0]
  · intro σ ops s f hf hn
    simp [dict_lmdb_sequence, hf, hn]

/-- C7 witness: concrete misconfigured calls panic. -/
theorem C7_misconfiguration_panics_witness :
    (dict_lmdb_lookup idealOps (exStateF flagsNone []) [97]).1 = Exit.panic ∧
    (dict_lmdb_sequence idealOps (exState true true []) 7).1 = Exit.panic :=
  ⟨(C7_misconfiguration_panics.1 AssocDb idealOps (exStateF flagsNone [])
      [97] [49] false rfl rfl).1,
   C7_misconfiguration_panics.2 AssocDb idealOps (exState true true []) 7
     (by decide) (by decide)⟩

/-- C8 counterexample: when the caller specifies neither encoding-try
flag, `dict_lmdb_open` does not resolve the flags to a single
platform-default encoding — it turns BOTH try flags on (deferring the
choice to the first write), so the result is neither "trailing sentinel
only" nor "no trailing sentinel only" as the claim states. -/
theorem C8_counterexample :
    (dict_lmdb_open_flags flagsNone).try1null = true ∧
    (dict_lmdb_open_flags flagsNone).try0null = true ∧
    ¬((dict_lmdb_open_flags flagsNone).try1null = true ∧
      (dict_lmdb_open_flags flagsNone).try0null = false) ∧
    ¬((dict_lmdb_open_flags flagsNone).try0null = true ∧
      (dict_lmdb_open_flags flagsNone).try1null = false) := by
  decide

/-- C8 (amended): if the caller specifies neither encoding-try flag,
open sets BOTH flags (the platform-default convention is applied later,
at the first update while still undecided, clearing one flag per
`LMDB_NO_TRAILING_NULL`); in no case does open leave both flags clear,
and caller-specified try flags are kept as given. -/
theorem C8_open_flag_resolution (dictFlags : Flags) :
    ((dict_lmdb_open_flags dictFlags).try1null = true ∨
     (dict_lmdb_open_flags dictFlags).try0null = true) ∧
    (dictFlags.try1null = false → dictFlags.try0null = false →
      (dict_lmdb_open_flags dictFlags).try1null = true ∧
      (dict_lmdb_open_flags dictFlags).try0null = true) ∧
    (dictFlags.try1null = true ∨ dictFlags.try0null = true →
      (dict_lmdb_open_flags dictFlags).try1null = dictFlags.try1null ∧
      (dict_lmdb_open_flags dictFlags).try0null = dictFlags.try0null) ∧
    (∀ (σ : Type) (ops : SlmdbOps σ) (s : DictState σ) (name value : Bytes)
        (nt : Bool),
      s.flags.try1null = true → s.flags.try0null = true →
      (dict_lmdb_update nt ops s name value).2.1.flags.try1null = !nt ∧
      (dict_lmdb_update nt ops s name value).2.1.flags.try0null = nt) := by
  refine ⟨?_, ?_, ?_, ?_⟩
  · by_cases h1 : dictFlags.try1null = true <;>
      by_cases h0 : dictFlags.try0null = true <;>
        simp_all [dict_lmdb_open_flags]
  · intro h1 h0
    simp [dict_lmdb_open_flags, h1, h0]
  · intro h
    rcases h with h | h <;> simp [dict_lmdb_open_flags, h]
  · intro σ ops s name value nt h1 h0
    cases nt <;>
      simp only [dict_lmdb_update, dict_lmdb_update_body, unlockIf, h1, h0,
        applyFold_flags] <;>
        simp only [Bool.true_eq_false, false_and, if_false, and_self,
          if_true, ite_true, ite_false, Bool.not_false, Bool.not_true] <;>
        (repeat' split) <;> simp_all

/-- C8 witness: concrete instances of the amended claim. -/
theorem C8_open_flag_resolution_witness :
    (dict_lmdb_open_flags flagsNone).try1null = true ∧
    (dict_lmdb_open_flags flagsNone).try0null = true ∧
    (dict_lmdb_update false idealOps (exState true true []) [97]
        [49]).2.1.flags.try1null = true :=
  ⟨((C8_open_flag_resolution flagsNone).2.1 rfl rfl).1,
   ((C8_open_flag_resolution flagsNone).2.1 rfl rfl).2,
   ((C8_open_flag_resolution flagsNone).2.2.2 AssocDb idealOps
       (exState true true []) [97] [49] false rfl rfl).1⟩

/-- C9: `dict_lmdb_open` configures the engine session with a doubling
growth factor (2), a maximum map size of `SSIZE_T_MAX` (the largest
representable signed size, `2 ^ (bits - 1) - 1`), an API-call retry
limit of 2 attempts, and a bulk-transaction retry limit of 2 times the
number of bits in `size_t`. -/
theorem C9_engine_session_config (p : Platform) (mapSize : Nat) (σ : Type)
    (strerror : Int → String) (path : String) (dictFlags : Flags) (db0 : σ)
    (s : DictState σ) (cfg : SessionConfig)
    (h : dict_lmdb_open p mapSize 0 0 strerror true path dictFlags db0 =
         Exit.ret (OpenOutcome.opened s cfg)) :
    cfg.sizeIncr = 2 ∧
    cfg.sizeMax = SSIZE_T_MAX p ∧
    SSIZE_T_MAX p = 2 ^ (p.sizeofSizeT * p.charBit - 1) - 1 ∧
    cfg.apiRetryLimit = 2 ∧
    cfg.bulkRetryLimit = 2 * (p.sizeofSizeT * p.charBit) ∧
    cfg.initialMapSize = mapSize := by
  simp [dict_lmdb_open] at h
  obtain ⟨hs, hc⟩ := h
  subst hc
  simp [dict_lmdb_session_config, DICT_LMDB_SIZE_INCR, DICT_LMDB_SIZE_MAX,
    DICT_LMDB_API_RETRY_LIMIT, DICT_LMDB_BULK_RETRY_LIMIT, SSIZE_T_MAX,
    Nat.mul_assoc]

/-- C9 witness: the configuration on a 64-bit platform. -/
theorem C9_engine_session_config_witness :
    (dict_lmdb_session_config ⟨8, 8, false⟩ 8192).sizeIncr = 2 ∧
    (dict_lmdb_session_config ⟨8, 8, false⟩ 8192).sizeMax = 2 ^ 63 - 1 ∧
    (dict_lmdb_session_config ⟨8, 8, false⟩ 8192).apiRetryLimit = 2 ∧
    (dict_lmdb_session_config ⟨8, 8, false⟩ 8192).bulkRetryLimit = 2 * 64 :=
  have h := C9_engine_session_config ⟨8, 8, false⟩ 8192 AssocDb (fun _ => "E")
    "p" flagsNone [] (exStateF (dict_lmdb_open_flags flagsNone) [])
    (dict_lmdb_session_config ⟨8, 8, false⟩ 8192) rfl
  ⟨h.1, h.2.1.trans h.2.2.1, h.2.2.2.1, h.2.2.2.2.1⟩

/-- C4: whenever engine session initialization (`slmdb_init`) or engine
open (`slmdb_open`) fails, `dict_lmdb_open` returns the degraded
stand-in handle built from the diagnostic
`"open database <path>.lmdb: <engine error text>"` — a normal return,
never process termination — and (surrogate behaviour modelled from the
spec) every subsequent operation on that handle fails with that same
captured diagnostic. -/
theorem C4_degraded_open (σ : Type) (p : Platform) (mapSize : Nat)
    (initStatus openStatus : Int) (strerror : Int → String) (fstatOk : Bool)
    (path : String) (dictFlags : Flags) (db0 : σ)
    (h : initStatus ≠ 0 ∨ openStatus ≠ 0) :
    dict_lmdb_open p mapSize initStatus openStatus strerror fstatOk path
        dictFlags db0 =
      Exit.ret (OpenOutcome.surrogate
        { diag := "open database " ++ (path ++ "." ++ "lmdb") ++ ": " ++
            strerror (if initStatus ≠ 0 then initStatus else openStatus) }) ∧
    (∀ d : SurrogateDict, surrogate_op d = Exit.ret d.diag) := by
  refine ⟨?_, fun d => rfl⟩
  simp [dict_lmdb_open, h]

/-- C4 witness: a failing engine open yields the surrogate. -/
theorem C4_degraded_open_witness :
    dict_lmdb_open (σ := AssocDb) ⟨8, 8, false⟩ 8192 1 0 (fun _ => "E") true
        "pathX" flagsNone [] =
      Exit.ret (OpenOutcome.surrogate
        { diag := "open database " ++ ("pathX" ++ "." ++ "lmdb") ++ ": " ++
            "E" }) :=
  (C4_degraded_open AssocDb ⟨8, 8, false⟩ 8192 1 0 (fun _ => "E") true
    "pathX" flagsNone [] (Or.inl (by decide))).1

/-- C5: deleting a key absent under both encodings reports "not found"
(return value 1) as an ordinary non-error result — a normal return with
the handle's error field 0 and the database unchanged — for every valid
encoding configuration of the handle. -/
theorem C5_delete_missing_key (s : DictState AssocDb) (name : Bytes)
    (hflag : s.flags.try1null = true ∨ s.flags.try0null = true)
    (h1 : dbGet s.db (foldedName s.flags name ++ [0]) = none)
    (h0 : dbGet s.db (foldedName s.flags name) = none) :
    (dict_lmdb_delete idealOps s name).1 = Exit.ret 1 ∧
    (dict_lmdb_delete idealOps s name).2.1.db = s.db ∧
    (dict_lmdb_delete idealOps s name).2.1.error = 0 := by
  obtain ⟨⟨t1, t0, ff, lk, di, dw, dr, bu, wr, fx⟩, err, kb, vb, fb, db⟩ := s
  cases t1 <;> cases t0 <;>
    simp_all [dict_lmdb_delete, dict_lmdb_delete_probes,
      dict_lmdb_delete_try0, unlockIf, idealOps_del_none, MDB_NOTFOUND]

set_option maxHeartbeats 1000000 in
/-- C1: a value written by a successful update (return status 0) and
then looked up with the same key on the same handle is returned by
lookup byte for byte, whichever encoding default (`noTrailingNull`
platform convention, caller-chosen try flags) is in effect; the value,
being a C string, contains no NUL byte. -/
theorem C1_roundtrip (nt : Bool) (s : DictState AssocDb) (name value : Bytes)
    (hv : (0 : Nat) ∉ value)
    (hu : (dict_lmdb_update nt idealOps s name value).1 = Exit.ret 0) :
    lookupResult idealOps (dict_lmdb_update nt idealOps s name value).2.1 name
      = some value := by
  by_cases h1 : s.flags.try1null = true <;>
    by_cases h0 : s.flags.try0null = true <;>
      cases nt <;> by_cases hdr : s.flags.dupReplace = true <;>
        simp only [dict_lmdb_update, dict_lmdb_update_body, unlockIf,
          applyFold_fst, applyFold_flags, applyFold_db, lookupResult,
          dict_lmdb_lookup, dict_lmdb_lookup_probes, dict_lmdb_lookup_try0,
          idealOps, encode,
          h1, h0, hdr, Bool.true_eq_false, Bool.false_eq_true,
          false_and, and_false, true_and, and_true, and_self, if_true,
          if_false, ite_true, ite_false, decide_eq_true_eq] at hu ⊢ <;>
        (repeat' split at hu) <;>
        simp_all [cstr_append_null, cstr_of_not_mem, MDB_KEYEXIST,
          MDB_NOTFOUND, dbGet_dbPut_self, dbPut, dbGet]

/-- C1 witness: a concrete write/read round trip. -/
theorem C1_roundtrip_witness :
    (0 : Nat) ∉ ([49] : Bytes) ∧
    lookupResult idealOps
        (dict_lmdb_update false idealOps (exState true true []) [97]
          [49]).2.1 [97]
      = some [49] :=
  ⟨by decide,
   C1_roundtrip false (exState true true []) [97] [49] (by decide)
     (by decide)⟩

/-- C2: updating a key that already exists in the database (under the
encoding the write resolves to): with duplicate-replace configured the
new value overwrites the old; with duplicate-ignore configured the
update completes as an ordinary return with the handle's error field 0,
no warning, and the original value retained (its return value is the
engine's benign "key exists" status, the duplicate-skip arm of the
tri-state result); with duplicate-warn configured a warning is emitted
and the write is ignored; with no duplicate policy configured the
operation is fatal. -/
theorem C2_duplicate_policy (nt : Bool) (s : DictState AssocDb)
    (name value w : Bytes)
    (hflag : s.flags.try1null = true ∨ s.flags.try0null = true)
    (hex : dbGet s.db (encode (updateEnc nt s.flags) (foldedName s.flags name))
             = some w) :
    (s.flags.dupReplace = true →
      (dict_lmdb_update nt idealOps s name value).1 = Exit.ret 0 ∧
      dbGet (dict_lmdb_update nt idealOps s name value).2.1.db
          (encode (updateEnc nt s.flags) (foldedName s.flags name))
        = some (encode (updateEnc nt s.flags) value)) ∧
    (s.flags.dupReplace = false → s.flags.dupIgnore = true →
      (dict_lmdb_update nt idealOps s name value).1 = Exit.ret MDB_KEYEXIST ∧
      (dict_lmdb_update nt idealOps s name value).2.1.error = 0 ∧
      (dict_lmdb_update nt idealOps s name value).2.1.db = s.db ∧
      Ev.warnDup ∉ (dict_lmdb_update nt idealOps s name value).2.2) ∧
    (s.flags.dupReplace = false → s.flags.dupIgnore = false →
      s.flags.dupWarn = true →
      (dict_lmdb_update nt idealOps s name value).1 = Exit.ret MDB_KEYEXIST ∧
      (dict_lmdb_update nt idealOps s name value).2.1.db = s.db ∧
      Ev.warnDup ∈ (dict_lmdb_update nt idealOps s name value).2.2) ∧
    (s.flags.dupReplace = false → s.flags.dupIgnore = false →
      s.flags.dupWarn = false →
      (dict_lmdb_update nt idealOps s name value).1 = Exit.fatal) := by
  obtain ⟨⟨t1, t0, ff, lk, di, dw, dr, bu, wr, fx⟩, err, kb, vb, fb, db⟩ := s
  cases t1 <;> cases t0 <;> cases nt <;> cases dr <;> cases di <;>
    cases dw <;> cases lk <;>
      simp_all [dict_lmdb_update, dict_lmdb_update_body, unlockIf,
        updateEnc, encode, idealOps_put_replace, idealOps_put_exists,
        MDB_KEYEXIST]

/-- C2 witness: concrete duplicate-ignore and duplicate-replace runs. -/
theorem C2_duplicate_policy_witness :
    (dict_lmdb_update false idealOps
        (exStateF { flagsNone with try0null := true, dupIgnore := true }
          [([97], [49])]) [97] [50]).1 = Exit.ret MDB_KEYEXIST ∧
    (dict_lmdb_update false idealOps
        (exStateF { flagsNone with try0null := true, dupIgnore := true }
          [([97], [49])]) [97] [50]).2.1.db = [([97], [49])] ∧
    (dict_lmdb_update false idealOps
        (exStateF { flagsNone with try0null := true, dupReplace := true }
          [([97], [49])]) [97] [50]).1 = Exit.ret 0 :=
  ⟨((C2_duplicate_policy false
      (exStateF { flagsNone with try0null := true, dupIgnore := true }
        [([97], [49])]) [97] [50] [49] (Or.inr rfl) (by decide)).2.1
      rfl rfl).1,
   ((C2_duplicate_policy false
      (exStateF { flagsNone with try0null := true, dupIgnore := true }
        [([97], [49])]) [97] [50] [49] (Or.inr rfl) (by decide)).2.1
      rfl rfl).2.2.1,
   ((C2_duplicate_policy false
      (exStateF { flagsNone with try0null := true, dupReplace := true }
        [([97], [49])]) [97] [50] [49] (Or.inr rfl) (by decide)).1 rfl).1⟩

theorem lookup_resolved {σ : Type} (ops : SlmdbOps σ) (s : DictState σ)
    (name : Bytes) (e : Enc) (he : resolvedTo s.flags e) :
    (∀ e', Ev.engineCall e' ∈ (dict_lmdb_lookup ops s name).2.2 → e' = e) ∧
    resolvedTo (dict_lmdb_lookup ops s name).2.1.flags e := by
  cases e <;> obtain ⟨h1, h0⟩ := he <;>
    simp only [resolvedTo] <;>
    simp [dict_lmdb_lookup, dict_lmdb_lookup_probes, dict_lmdb_lookup_try0,
      unlockIf, h1, h0] <;>
    (repeat' split) <;> simp_all

theorem update_resolved {σ : Type} (nt : Bool) (ops : SlmdbOps σ)
    (s : DictState σ) (name value : Bytes) (e : Enc)
    (he : resolvedTo s.flags e) :
    (∀ e', Ev.engineCall e' ∈ (dict_lmdb_update nt ops s name value).2.2 →
      e' = e) ∧
    resolvedTo (dict_lmdb_update nt ops s name value).2.1.flags e := by
  cases e <;> obtain ⟨h1, h0⟩ := he <;>
    simp only [resolvedTo] <;>
    simp [dict_lmdb_update, dict_lmdb_update_body, unlockIf, h1, h0] <;>
    (repeat' split) <;> simp_all

theorem delete_resolved {σ : Type} (ops : SlmdbOps σ) (s : DictState σ)
    (name : Bytes) (e : Enc) (he : resolvedTo s.flags e) :
    (∀ e', Ev.engineCall e' ∈ (dict_lmdb_delete ops s name).2.2 → e' = e) ∧
    resolvedTo (dict_lmdb_delete ops s name).2.1.flags e := by
  cases e <;> obtain ⟨h1, h0⟩ := he <;>
    simp only [resolvedTo] <;>
    simp [dict_lmdb_delete, dict_lmdb_delete_probes, dict_lmdb_delete_try0,
      unlockIf, h1, h0] <;>
    (repeat' split) <;> simp_all

/-- C3: once a handle has resolved the encoding (one encoding-try flag
cleared, the other set), every lookup, update or delete on that handle
issues engine data calls only with the resolved encoding — never a
second probe with the other encoding — and leaves the handle resolved to
that same encoding; this holds for every engine behaviour. -/
theorem C3_resolved_encoding_stays (σ : Type) (ops : SlmdbOps σ)
    (s : DictState σ) (e : Enc) (name value : Bytes) (nt : Bool)
    (he : resolvedTo s.flags e) :
    (∀ e', Ev.engineCall e' ∈ (dict_lmdb_lookup ops s name).2.2 → e' = e) ∧
    resolvedTo (dict_lmdb_lookup ops s name).2.1.flags e ∧
    (∀ e', Ev.engineCall e' ∈ (dict_lmdb_update nt ops s name value).2.2 →
      e' = e) ∧
    resolvedTo (dict_lmdb_update nt ops s name value).2.1.flags e ∧
    (∀ e', Ev.engineCall e' ∈ (dict_lmdb_delete ops s name).2.2 → e' = e) ∧
    resolvedTo (dict_lmdb_delete ops s name).2.1.flags e := by
  obtain ⟨l1, l2⟩ := lookup_resolved ops s name e he
  obtain ⟨u1, u2⟩ := update_resolved nt ops s name value e he
  obtain ⟨d1, d2⟩ := delete_resolved ops s name e he
  exact ⟨l1, l2, u1, u2, d1, d2⟩

/-- C3 witness: a handle resolved to the no-sentinel encoding probes
only that encoding. -/
theorem C3_resolved_encoding_stays_witness :
    (∀ e', Ev.engineCall e' ∈
        (dict_lmdb_lookup idealOps (exState false true [([97], [49])])
          [97]).2.2 → e' = Enc.noNull) ∧
    resolvedTo
      (dict_lmdb_lookup idealOps (exState false true [([97], [49])])
        [97]).2.1.flags Enc.noNull :=
  have h := C3_resolved_encoding_stays AssocDb idealOps
    (exState false true [([97], [49])]) Enc.noNull [97] [50] false
    ⟨rfl, rfl⟩
  ⟨h.1, h.2.1⟩

/-- C5 witness: deleting from an empty database. -/
theorem C5_delete_missing_key_witness :
    (dict_lmdb_delete idealOps (exState true true []) [97]).1 = Exit.ret 1 :=
  (C5_delete_missing_key (exState true true []) [97] (Or.inl rfl)
    (by decide) (by decide)).1

end DictLmdb
